import Mathlib

/-!
Shallow embedding of the request-authentication and outbound-client core of
ShiftLeftSecurity/atlassian-connect-go, file apicommunication/transport.go,
together with the storage record type it consumes.

Modelling conventions:
- Go strings are Lean Strings; unix time is Int (seconds).
- The external jwt library (golang-jwt) is modelled by an abstract decoding
  environment: every token string either fails to decode (malformed) or
  decodes to a claim set plus the HMAC key it was signed with.  Signature
  verification against a key is equality of that key with the verifier key.
- Go pointers to constructed HostClients are indices into an explicit heap
  (a list of client records); reference equality is index equality.
- Fallible Go functions return Except; the runtime panic of assigning into a
  nil map is a dedicated outcome constructor.
-/

namespace ACGo

/-- The per-tenant install record, storage.JiraInstallInformation.  Only the
fields that the transport code reads drive control flow; the informational
fields (serverVersion and friends) are omitted since no modelled operation
inspects them. -/
structure JiraInstallInformation where
  Key : String
  ClientKey : String
  OauthClientID : String
  PublicKey : String
  SharedSecret : String
  BaseURL : String
  ProductType : String
deriving DecidableEq

/-- The claim set decoded from a token (jira.ClaimSet as the code uses it:
Issuer is read for the tenant lookup, ExpiresIn is checked by the expiry
validation; the other fields play no role in the modelled control flow). -/
structure ClaimSet where
  Issuer : String
  Subject : String
  ExpiresIn : Int
  IssuedAt : Int
deriving DecidableEq

/-- Outcome of decoding a token string with the jwt library: either the string
is not a well-formed three-part token, or it decodes to a claim set and was
HMAC-signed with some key. -/
inductive ParsedToken where
  | malformed
  | parsed (claims : ClaimSet) (sigKey : String)
deriving DecidableEq

/-- An environment assigning to every token string its decoding; it stands for
the deterministic parser of the jwt library, which is external to the
repository. -/
abbrev ParseEnv : Type := String → ParsedToken

/-- A storage.Store lookup: JiraInstallInformation(clientKey) returns a
record, nil (modelled as none), or an error. -/
abbrev Store : Type := String → Except String (Option JiraInstallInformation)

/-- Errors returned by ValidateRequest.  The constructor validationFailed
models the jwt ValidationError produced by the second, verifying parse and
wrapped at transport.go:379: its first flag is the expiry failure raised by
jwtClaims.Valid (the TokenExpired of the spec), its second flag is the
signature-verification failure (the SignatureInvalid of the spec). -/
inductive VErr where
  | tokenMissing
  | malformedToken
  | storageFailure (msg : String)
  | unknownTenant (clientKey : String)
  | validationFailed (expired sigInvalid : Bool)
deriving DecidableEq

/-- jwtClaims.Valid (transport.go:325-334): when ExpiresIn is zero no expiry
is enforced; otherwise the claims are invalid iff the current UTC time is
strictly after ExpiresIn (time.Now().UTC().After on unix seconds). -/
def jwtClaimsValid (now : Int) (j : ClaimSet) : Bool :=
  if j.ExpiresIn = 0 then true
  else if now > j.ExpiresIn then false
  else true

/-- Parser.ParseUnverified: decode the token without any signature or claims
check, exposing the claim set. -/
def ParseUnverified (parse : ParseEnv) (tok : String) : Except Unit ClaimSet :=
  match parse tok with
  | .malformed => .error ()
  | .parsed c _ => .ok c

/-- Error of the second, verifying parse: a structurally malformed token, or a
ValidationError carrying the expiry flag and the signature flag. -/
inductive ParseErr where
  | malformedStructure
  | validation (expired sigInvalid : Bool)
deriving DecidableEq

/-- Parser.ParseWithClaims with a key-resolution callback returning key:
decode, then validate the claims (jwtClaims.Valid) and verify the HMAC
signature against key; as in golang-jwt the two failures are combined into a
single ValidationError carrying both flags. -/
def ParseWithClaims (parse : ParseEnv) (tok key : String) (now : Int) :
    Except ParseErr ClaimSet :=
  match parse tok with
  | .malformed => .error .malformedStructure
  | .parsed c k =>
    let expired := !jwtClaimsValid now c
    let sigInvalid := k != key
    if expired || sigInvalid then .error (.validation expired sigInvalid)
    else .ok c

/-- The scheme tag stripped from the Authorization header. -/
def jwtScheme : String := "JWT "

/-- strings.TrimPrefix: drop pre from the front of s only when s starts with
it, otherwise return s unchanged.  Stated on the character lists underlying
the strings so that it evaluates by kernel reduction. -/
def TrimPre (s pre : String) : String :=
  if pre.data.isPrefixOf s.data then String.mk (s.data.drop pre.data.length)
  else s

/-- Token extraction of ValidateRequest (transport.go:347-355): the jwt query
parameter wins; when it is empty the Authorization header is used with a
leading scheme tag stripped only when present. -/
def extractToken (queryJWT authHeader : String) : String :=
  if queryJWT = "" then TrimPre authHeader jwtScheme else queryJWT

/-- Core of ValidateRequest once the extracted token string is non-empty:
a first unverified parse reads the issuer claim, the store is consulted (its
error checked before the nil-record check), then the token is re-parsed with
the tenant shared secret as verification key. -/
def validateToken (parse : ParseEnv) (now : Int) (tok : String) (st : Store) :
    Except VErr JiraInstallInformation :=
  match ParseUnverified parse tok with
  | .error _ => .error .malformedToken
  | .ok jcs =>
    match st jcs.Issuer with
    | .error e => .error (.storageFailure e)
    | .ok none => .error (.unknownTenant jcs.Issuer)
    | .ok (some jii) =>
      match ParseWithClaims parse tok jii.SharedSecret now with
      | .error (.validation e s) => .error (.validationFailed e s)
      | .error .malformedStructure => .error .malformedToken
      | .ok _ => .ok jii

/-- ValidateRequest (transport.go:346-384), a pure function of the request
token sources, the parse environment, the current time and the store; on
success it returns the looked-up record itself, and the store value is never
modified (the embedding is a pure function of it). -/
def ValidateRequest (parse : ParseEnv) (now : Int) (queryJWT authHeader : String)
    (st : Store) : Except VErr JiraInstallInformation :=
  let tok := extractToken queryJWT authHeader
  if tok = "" then .error .tokenMissing
  else validateToken parse now tok st

/-- The HostClient record (transport.go:47-55).  The http client and context
carry no modelled state beyond their presence; localCache is the impersonation
cache map, with none standing for a nil Go map and cache entries pointing into
the heap of constructed clients. -/
structure HostClient where
  Config : JiraInstallInformation
  UserAccountID : String
  scopes : List String
  hasClient : Bool
  localCache : Option (List (String × Nat))
deriving DecidableEq

/-- The heap of constructed HostClients; a Go pointer is an index into it. -/
abbrev Heap : Type := List HostClient

/-- Errors of client construction.  The impersonation branch calls
getOauth2Config with empty authorization-server overrides, so the only URL it
parses is the well-formed built-in constant and that branch cannot fail;
the only reachable construction error is the empty-BaseURL failure of the
non-impersonating branch (transport.go:105-107). -/
inductive NewClientErr where
  | incompleteCredentials
deriving DecidableEq

/-- The client record built by the impersonation branch of
NewHostClientWithRoundtripper: oauth2 client set, localCache left nil. -/
def impersonatedClient (config : JiraInstallInformation) (userAccountID : String)
    (scopes : List String) : HostClient :=
  { Config := config, UserAccountID := userAccountID, scopes := scopes,
    hasClient := true, localCache := none }

/-- The client record built by the non-impersonating branch of
NewHostClientWithRoundtripper: JWT-signing transport set, localCache
initialized to an empty map. -/
def nonImpersonatedClient (config : JiraInstallInformation)
    (scopes : List String) : HostClient :=
  { Config := config, UserAccountID := "", scopes := scopes,
    hasClient := true, localCache := some [] }

/-- NewHostClientWithRoundtripper (transport.go:80-110).  With a non-empty
userAccountID the oauth2 branch returns before the BaseURL check and before
the cache-map initialization; only the non-impersonating branch checks
BaseURL and allocates the cache.  The fresh client is appended to the heap
and its index returned. -/
def NewHostClientWithRoundtripper (heap : Heap) (config : JiraInstallInformation)
    (userAccountID : String) (scopes : List String) :
    Except NewClientErr (Heap × Nat) :=
  if userAccountID ≠ "" then
    .ok (heap ++ [impersonatedClient config userAccountID scopes], heap.length)
  else
    if config.BaseURL = "" then .error .incompleteCredentials
    else .ok (heap ++ [nonImpersonatedClient config scopes], heap.length)

/-- NewHostClient (transport.go:75-77): NewHostClientWithRoundtripper with the
default transport, which plays no role in the modelled state. -/
def NewHostClient (heap : Heap) (config : JiraInstallInformation)
    (userAccountID : String) (scopes : List String) :
    Except NewClientErr (Heap × Nat) :=
  NewHostClientWithRoundtripper heap config userAccountID scopes

/-- strings.ToLower, stated on the underlying character list so that it
evaluates by kernel reduction (ASCII case folding, which covers the
product-type constants involved). -/
def stringToLower (s : String) : String := String.mk (s.data.map Char.toLower)

/-- ProductTypeJira (transport.go:203). -/
def ProductTypeJira : String := "jira"

/-- ProductTypeConfluence (transport.go:205). -/
def ProductTypeConfluence : String := "confluence"

/-- Errors of AsUserByAccountID; the two impersonation-unsupported
constructors correspond to the two messages of transport.go:220 and 222, both
of which carry the configured product type. -/
inductive AsUserErr where
  | invalidUserID
  | impersonationUnsupportedConfluence (productType : String)
  | impersonationUnsupportedOther (productType : String)
  | creatingClient (e : NewClientErr)
deriving DecidableEq

/-- Outcome of AsUserByAccountID: a normal return carrying the possibly-grown
heap, the factory with its (mutated) cache, and the returned client index; an
error; or the runtime panic of assigning into a nil map. -/
inductive AsUserOutcome where
  | ok (heap : Heap) (factory : HostClient) (ref : Nat)
  | err (e : AsUserErr)
  | nilMapPanic
deriving DecidableEq

/-- AsUserByAccountID (transport.go:210-230).  Reading a nil Go map yields
absence, hence the cache probe goes through getD []; the product-type gate
compares the lowercased product type with the jira constant and runs after
the cache probe; a freshly constructed client is stored into the cache map
before being returned, and that assignment panics when the map is nil. -/
def AsUserByAccountID (heap : Heap) (h : HostClient) (userAccountID : String) :
    AsUserOutcome :=
  if userAccountID = "" then .err .invalidUserID
  else
    match (h.localCache.getD []).lookup userAccountID with
    | some cref => .ok heap h cref
    | none =>
      if stringToLower h.Config.ProductType ≠ ProductTypeJira then
        if stringToLower h.Config.ProductType = ProductTypeConfluence then
          .err (.impersonationUnsupportedConfluence h.Config.ProductType)
        else
          .err (.impersonationUnsupportedOther h.Config.ProductType)
      else
        match NewHostClient heap h.Config userAccountID h.scopes with
        | .error e => .err (.creatingClient e)
        | .ok (heap1, cref) =>
          match h.localCache with
          | none => .nilMapPanic
          | some m =>
            .ok heap1 { h with localCache := some ((userAccountID, cref) :: m) } cref

/-- Result of DoWithTarget, after a response has been obtained:
a deserialization failure while decoding the body, the typed
UnexpectedResponse (transport.go:154-157, 190-193), or a plain success. -/
inductive DWOut where
  | deserializationFailure (code : Nat)
  | unexpectedResponse (obtained : Nat) (expected : List Nat)
  | success (code : Nat)
deriving DecidableEq

/-- The expected-codes loop of DoWithTarget (transport.go:183-189): for each
expected code equal to the response status the body is decoded; a failed
decode returns immediately.  The Nat accumulator counts decode attempts, and
decodeOk gives the outcome of the i-th decode attempt. -/
def dwLoop (status : Nat) (decodeOk : Nat → Bool) :
    List Nat → Nat → Option DWOut × Nat
  | [], n => (none, n)
  | c :: rest, n =>
    if status = c then
      if decodeOk n then dwLoop status decodeOk rest (n + 1)
      else (some (.deserializationFailure status), n + 1)
    else dwLoop status decodeOk rest n

/-- DoWithTarget (transport.go:175-199) from the point where a response with
the given status code is in hand; the body/target decoding performed by
TypeFromResponse is an external JSON step, modelled by the decodeOk oracle.
Returned alongside the outcome is the number of decode attempts made.  With a
non-empty expectedCodes list the loop runs and then the function always
returns UnexpectedResponse (even after a successful matched decode); with an
empty list decoding is unconditional. -/
def DoWithTarget (status : Nat) (decodeOk : Nat → Bool)
    (expectedCodes : List Nat) : DWOut × Nat :=
  if expectedCodes.length > 0 then
    match dwLoop status decodeOk expectedCodes 0 with
    | (some out, n) => (out, n)
    | (none, n) => (.unexpectedResponse status expectedCodes, n)
  else
    if decodeOk 0 then (.success status, 1) else (.deserializationFailure status, 1)

lemma jwtClaimsValid_of_fresh (now : Int) (c : ClaimSet)
    (hexp : c.ExpiresIn = 0 ∨ now < c.ExpiresIn) : jwtClaimsValid now c = true := by
  unfold jwtClaimsValid
  rcases hexp with h0 | hfut
  · rw [if_pos h0]
  · by_cases h0 : c.ExpiresIn = 0
    · rw [if_pos h0]
    · rw [if_neg h0, if_neg (by omega)]

/-- C1: for every tenant record stored under key T and every request whose
extracted token is well-formed, carries issuer claim T, was signed with that
record's SharedSecret, and has an exp claim that is zero or in the future,
ValidateRequest succeeds and returns exactly that record.  The embedding is a
pure function of the store, so the store is not modified and the returned
record is the stored one, unmutated. -/
theorem ValidateRequest_valid_token_returns_credentials
    (parse : ParseEnv) (now : Int) (q hdr tok : String) (st : Store)
    (c : ClaimSet) (jii : JiraInstallInformation)
    (hex : extractToken q hdr = tok) (hne : tok ≠ "")
    (hp : parse tok = .parsed c jii.SharedSecret)
    (hst : st c.Issuer = .ok (some jii))
    (hexp : c.ExpiresIn = 0 ∨ now < c.ExpiresIn) :
    ValidateRequest parse now q hdr st = .ok jii := by
  have hv := jwtClaimsValid_of_fresh now c hexp
  simp only [ValidateRequest, hex, if_neg hne]
  simp [validateToken, ParseUnverified, hp, hst, ParseWithClaims, hv]

/-- A sample tenant record for concrete witnesses (the scenario of spec
section 8: tenant T1 with shared secret s3cr3t). -/
def tenantT1 : JiraInstallInformation :=
  { Key := "T1", ClientKey := "ck", OauthClientID := "o", PublicKey := "p",
    SharedSecret := "s3cr3t", BaseURL := "https://host.example",
    ProductType := "jira" }

theorem ValidateRequest_valid_token_witness :
    ValidateRequest
      (fun _ => ParsedToken.parsed ⟨"T1", "", 300, 0⟩ ("s3cr3t")) 0 "tok1" ""
      (fun _ => .ok (some tenantT1)) = .ok tenantT1 :=
  ValidateRequest_valid_token_returns_credentials _ 0 "tok1" "" "tok1" _
    ⟨"T1", "", 300, 0⟩ _ rfl (by decide) rfl rfl (Or.inr (by decide))

/-- C2: for every stored tenant record and every extracted token whose issuer
claim names that tenant but which was signed with a key different from the
tenant's SharedSecret, ValidateRequest fails with the ValidationError whose
signature flag is set (the spec's SignatureInvalid).  The verification is the
second parse, ParseWithClaims, whose key argument is the SharedSecret of the
record the store resolved for the issuer. -/
theorem ValidateRequest_wrong_secret_signatureInvalid
    (parse : ParseEnv) (now : Int) (q hdr tok : String) (st : Store)
    (c : ClaimSet) (k : String) (jii : JiraInstallInformation)
    (hex : extractToken q hdr = tok) (hne : tok ≠ "")
    (hp : parse tok = .parsed c k) (hk : k ≠ jii.SharedSecret)
    (hst : st c.Issuer = .ok (some jii)) :
    ValidateRequest parse now q hdr st =
      .error (.validationFailed (!jwtClaimsValid now c) true) := by
  have hsig : (k != jii.SharedSecret) = true := bne_iff_ne.mpr hk
  simp only [ValidateRequest, hex, if_neg hne]
  simp [validateToken, ParseUnverified, hp, hst, ParseWithClaims, hsig]

theorem ValidateRequest_wrong_secret_witness :
    ValidateRequest
      (fun _ => ParsedToken.parsed ⟨"T1", "", 0, 0⟩ ("wrong")) 0 "tok1" ""
      (fun _ => .ok (some tenantT1)) = .error (.validationFailed false true) :=
  ValidateRequest_wrong_secret_signatureInvalid _ 0 "tok1" "" "tok1" _
    ⟨"T1", "", 0, 0⟩ ("wrong") tenantT1 rfl (by decide) rfl (by decide) rfl

/-- C3: for a token otherwise valid for a stored tenant (right issuer, right
secret): when the exp claim is non-zero and the current time is strictly
after it, ValidateRequest fails with the ValidationError whose expiry flag is
set (the spec's TokenExpired); when exp is zero, validation succeeds whatever
the current time is (now is universally quantified). -/
theorem ValidateRequest_expiry_enforcement
    (parse : ParseEnv) (now : Int) (q hdr tok : String) (st : Store)
    (c : ClaimSet) (jii : JiraInstallInformation)
    (hex : extractToken q hdr = tok) (hne : tok ≠ "")
    (hp : parse tok = .parsed c jii.SharedSecret)
    (hst : st c.Issuer = .ok (some jii)) :
    (c.ExpiresIn ≠ 0 → now > c.ExpiresIn →
        ValidateRequest parse now q hdr st =
          .error (.validationFailed true false)) ∧
    (c.ExpiresIn = 0 → ValidateRequest parse now q hdr st = .ok jii) := by
  constructor
  · intro h0 hgt
    have hv : jwtClaimsValid now c = false := by
      unfold jwtClaimsValid
      rw [if_neg h0, if_pos hgt]
    simp only [ValidateRequest, hex, if_neg hne]
    simp [validateToken, ParseUnverified, hp, hst, ParseWithClaims, hv]
  · intro h0
    have hv : jwtClaimsValid now c = true := by
      unfold jwtClaimsValid
      rw [if_pos h0]
    simp only [ValidateRequest, hex, if_neg hne]
    simp [validateToken, ParseUnverified, hp, hst, ParseWithClaims, hv]

theorem ValidateRequest_expiry_witness :
    ValidateRequest
      (fun _ => ParsedToken.parsed ⟨"T1", "", 100, 0⟩ ("s3cr3t")) 200 "tok1" ""
      (fun _ => .ok (some tenantT1)) = .error (.validationFailed true false) ∧
    ValidateRequest
      (fun _ => ParsedToken.parsed ⟨"T1", "", 0, 0⟩ ("s3cr3t")) 99999 "tok1" ""
      (fun _ => .ok (some tenantT1)) = .ok tenantT1 :=
  ⟨(ValidateRequest_expiry_enforcement _ 200 "tok1" "" "tok1" _
      ⟨"T1", "", 100, 0⟩ tenantT1 rfl (by decide) rfl rfl).1 (by decide) (by decide),
   (ValidateRequest_expiry_enforcement _ 99999 "tok1" "" "tok1" _
      ⟨"T1", "", 0, 0⟩ tenantT1 rfl (by decide) rfl rfl).2 rfl⟩

/-- C7: once the issuer has been read from the unverified token, a store
lookup that returns no record makes ValidateRequest fail with the
unknown-tenant error, and a store lookup that itself errors makes it fail
with the wrapped storage failure.  Both conclusions hold for every signing
key k of the token and every current time, showing the failure is decided
before any signature verification is attempted. -/
theorem ValidateRequest_store_failures_before_signature
    (parse : ParseEnv) (now : Int) (q hdr tok : String) (st : Store)
    (c : ClaimSet) (k : String)
    (hex : extractToken q hdr = tok) (hne : tok ≠ "")
    (hp : parse tok = .parsed c k) :
    (st c.Issuer = .ok none →
        ValidateRequest parse now q hdr st = .error (.unknownTenant c.Issuer)) ∧
    (∀ e, st c.Issuer = .error e →
        ValidateRequest parse now q hdr st = .error (.storageFailure e)) := by
  constructor
  · intro hst
    simp only [ValidateRequest, hex, if_neg hne]
    simp [validateToken, ParseUnverified, hp, hst]
  · intro e hst
    simp only [ValidateRequest, hex, if_neg hne]
    simp [validateToken, ParseUnverified, hp, hst]

theorem ValidateRequest_store_failures_witness :
    ValidateRequest
      (fun _ => ParsedToken.parsed ⟨"T9", "", 0, 0⟩ ("s3cr3t")) 0 "tok1" ""
      (fun _ => .ok none) = .error (.unknownTenant "T9") ∧
    ValidateRequest
      (fun _ => ParsedToken.parsed ⟨"T9", "", 0, 0⟩ ("s3cr3t")) 0 "tok1" ""
      (fun _ => .error "db down") = .error (.storageFailure "db down") :=
  ⟨(ValidateRequest_store_failures_before_signature _ 0 "tok1" "" "tok1" _
      ⟨"T9", "", 0, 0⟩ ("s3cr3t") rfl (by decide) rfl).1 rfl,
   (ValidateRequest_store_failures_before_signature _ 0 "tok1" "" "tok1" _
      ⟨"T9", "", 0, 0⟩ ("s3cr3t") rfl (by decide) rfl).2 ("db down") rfl⟩

lemma validateToken_ne_tokenMissing (parse : ParseEnv) (now : Int)
    (tok : String) (st : Store) :
    validateToken parse now tok st ≠ .error .tokenMissing := by
  unfold validateToken
  cases hp : ParseUnverified parse tok with
  | error e => simp [hp]
  | ok jcs =>
    cases hst : st jcs.Issuer with
    | error e => simp [hp, hst]
    | ok o =>
      cases o with
      | none => simp [hp, hst]
      | some jii =>
        cases hpw : ParseWithClaims parse tok jii.SharedSecret now with
        | error pe => cases pe <;> simp [hp, hst, hpw]
        | ok c2 => simp [hp, hst, hpw]

/-- C9 counterexample: with an empty jwt query parameter and the non-empty
Authorization header consisting of exactly the scheme tag, ValidateRequest
fails with tokenMissing even though the header is non-empty, refuting the
claim that the token-missing failure occurs only when both the query
parameter and the header are empty (and that every non-empty header is
processed as a token). -/
theorem ValidateRequest_tokenMissing_nonempty_header_cex :
    ValidateRequest (fun _ => ParsedToken.malformed) 0 "" "JWT "
      (fun _ => .ok none) = .error .tokenMissing ∧ "JWT " ≠ "" :=
  ⟨by rfl, by decide⟩

/-- C9 amended: the token-missing failure occurs exactly when the jwt query
parameter is empty and the Authorization header, after stripping one leading
scheme tag when present, is empty (that is, the header is empty or is
exactly the scheme tag); whenever the query parameter is empty and the
stripped header value is non-empty, that entire value is processed as the
token, so a header carrying another scheme is parsed as a token rather than
rejected as missing. -/
theorem ValidateRequest_token_extraction (parse : ParseEnv) (now : Int)
    (q hdr : String) (st : Store) :
    (ValidateRequest parse now q hdr st = .error .tokenMissing ↔
        (q = "" ∧ TrimPre hdr jwtScheme = "")) ∧
    (q = "" → TrimPre hdr jwtScheme ≠ "" →
        ValidateRequest parse now q hdr st =
          validateToken parse now (TrimPre hdr jwtScheme) st) := by
  constructor
  · by_cases hq : q = ""
    · by_cases ht : TrimPre hdr jwtScheme = ""
      · constructor
        · intro _
          exact ⟨hq, ht⟩
        · intro _
          simp [ValidateRequest, extractToken, hq, ht]
      · constructor
        · intro hcontra
          exfalso
          have heq : ValidateRequest parse now q hdr st =
              validateToken parse now (TrimPre hdr jwtScheme) st := by
            simp [ValidateRequest, extractToken, hq, ht]
          rw [heq] at hcontra
          exact validateToken_ne_tokenMissing parse now _ st hcontra
        · rintro ⟨_, ht2⟩
          exact absurd ht2 ht
    · constructor
      · intro hcontra
        exfalso
        have heq : ValidateRequest parse now q hdr st =
            validateToken parse now q st := by
          simp [ValidateRequest, extractToken, hq]
        rw [heq] at hcontra
        exact validateToken_ne_tokenMissing parse now _ st hcontra
      · rintro ⟨hq2, _⟩
        exact absurd hq2 hq
  · intro hq ht
    simp [ValidateRequest, extractToken, hq, ht]

theorem ValidateRequest_token_extraction_witness :
    ValidateRequest (fun _ => ParsedToken.malformed) 0 "" "Bearer x"
      (fun _ => .ok none) =
      validateToken (fun _ => ParsedToken.malformed) 0
        (TrimPre ("Bearer x") jwtScheme) (fun _ => .ok none) :=
  (ValidateRequest_token_extraction _ 0 "" "Bearer x" _).2 rfl (by decide)

lemma dwLoop_not_mem (status : Nat) (decodeOk : Nat → Bool) (codes : List Nat)
    (n : Nat) (hnm : status ∉ codes) :
    dwLoop status decodeOk codes n = (none, n) := by
  induction codes generalizing n with
  | nil => rfl
  | cons c rest ih =>
    have hne : status ≠ c := fun h => hnm (h ▸ List.mem_cons_self c rest)
    have hrest : status ∉ rest := fun h => hnm (List.mem_cons_of_mem c h)
    simp [dwLoop, hne, ih _ hrest]

/-- C6: with a non-empty list of expected status codes and a response status
that is not a member of it, DoWithTarget returns the typed
UnexpectedResponse carrying the obtained status and the expected list, and
performs zero decode attempts (the second component), so the body is never
decoded into the target. -/
theorem DoWithTarget_unexpected_no_decode (status : Nat) (decodeOk : Nat → Bool)
    (codes : List Nat) (hne : codes ≠ []) (hnm : status ∉ codes) :
    DoWithTarget status decodeOk codes =
      (.unexpectedResponse status codes, 0) := by
  have hlen : 0 < codes.length := List.length_pos.mpr hne
  simp [DoWithTarget, hlen, dwLoop_not_mem status decodeOk codes 0 hnm]

theorem DoWithTarget_unexpected_witness :
    DoWithTarget 404 (fun _ => true) [200, 201] =
      (.unexpectedResponse 404 [200, 201], 0) :=
  DoWithTarget_unexpected_no_decode 404 (fun _ => true) [200, 201]
    (by decide) (by decide)

/-- A sample tenant record with the confluence product type. -/
def tenantConf : JiraInstallInformation :=
  { Key := "T2", ClientKey := "ck", OauthClientID := "o", PublicKey := "p",
    SharedSecret := "s3cr3t", BaseURL := "https://host.example",
    ProductType := "confluence" }

/-- A sample tenant record with an empty base URL. -/
def tenantNoURL : JiraInstallInformation :=
  { Key := "T3", ClientKey := "ck", OauthClientID := "o", PublicKey := "p",
    SharedSecret := "s3cr3t", BaseURL := "", ProductType := "jira" }

/-- C4 counterexample: NewHostClientWithRoundtripper itself performs no
product-type check, so constructing a client over a confluence tenant with a
non-empty impersonated user succeeds instead of failing with the
impersonation-unsupported error the claim requires of NewClient. -/
theorem NewHostClient_confluence_impersonation_cex :
    NewHostClientWithRoundtripper [] tenantConf ("user-1") [] =
      .ok ([impersonatedClient tenantConf ("user-1") []], 0) ∧
    tenantConf.ProductType ≠ ProductTypeJira :=
  ⟨by rfl, by decide⟩

/-- C4 amended: the product-type gate lives in AsUserByAccountID, not in
NewHostClientWithRoundtripper, and it compares the lowercased product type
with the jira constant: for a non-empty userID with no cache entry and a
product type whose lowercase form is not jira, AsUserByAccountID fails with
the impersonation-unsupported error, which names the actual configured
product type (in both its confluence and generic variants). -/
theorem AsUserByAccountID_impersonationUnsupported (heap : Heap)
    (h : HostClient) (u : String) (hu : u ≠ "")
    (hmiss : (h.localCache.getD []).lookup u = none)
    (hpt : stringToLower h.Config.ProductType ≠ ProductTypeJira) :
    AsUserByAccountID heap h u =
      (if stringToLower h.Config.ProductType = ProductTypeConfluence then
        .err (.impersonationUnsupportedConfluence h.Config.ProductType)
      else .err (.impersonationUnsupportedOther h.Config.ProductType)) := by
  have hcj : ProductTypeConfluence ≠ ProductTypeJira := by decide
  by_cases hc : stringToLower h.Config.ProductType = ProductTypeConfluence <;>
    simp [AsUserByAccountID, hu, hmiss, hpt, hc, hcj]

/-- A factory client over the confluence tenant, as the non-impersonating
construction branch builds it. -/
def confluenceFactory : HostClient :=
  { Config := tenantConf, UserAccountID := "", scopes := [],
    hasClient := true, localCache := some [] }

theorem AsUserByAccountID_impersonationUnsupported_witness :
    AsUserByAccountID [] confluenceFactory ("user-1") =
      .err (.impersonationUnsupportedConfluence "confluence") :=
  (AsUserByAccountID_impersonationUnsupported [] confluenceFactory ("user-1")
    (by decide) rfl (by decide)).trans (by decide)

/-- C8 counterexample: with a non-empty impersonated user the oauth2 branch
of NewHostClientWithRoundtripper returns before the BaseURL check, so
construction over a record whose BaseURL is empty succeeds instead of
failing with incompleteCredentials. -/
theorem NewHostClient_emptyBaseURL_impersonation_cex :
    NewHostClientWithRoundtripper [] tenantNoURL ("user-1") [] =
      .ok ([impersonatedClient tenantNoURL ("user-1") []], 0) ∧
    tenantNoURL.BaseURL = "" :=
  ⟨by rfl, by rfl⟩

/-- C8 amended: the empty-BaseURL check is performed only by the
non-impersonating branch: for every record with an empty BaseURL,
construction with an empty impersonated user fails with
incompleteCredentials. -/
theorem NewHostClient_emptyBaseURL_incompleteCredentials (heap : Heap)
    (config : JiraInstallInformation) (scopes : List String)
    (hb : config.BaseURL = "") :
    NewHostClientWithRoundtripper heap config "" scopes =
      .error .incompleteCredentials := by
  simp [NewHostClientWithRoundtripper, hb]

theorem NewHostClient_emptyBaseURL_witness :
    NewHostClientWithRoundtripper [] tenantNoURL "" [] =
      .error .incompleteCredentials :=
  NewHostClient_emptyBaseURL_incompleteCredentials [] tenantNoURL [] rfl

/-- C10: the impersonation cache map is allocated only by the
non-impersonating construction branch; a client built for a non-empty
impersonated user carries a nil cache (none), and calling AsUserByAccountID
on such a client with any non-empty userID (nothing can be cached in a nil
map) reaches the assignment into the nil map: the inner client construction
succeeds and the call ends in the nil-map panic. -/
theorem AsUser_nilCache_panics (heap : Heap) (config : JiraInstallInformation)
    (u : String) (scopes : List String) (h : HostClient)
    (hu : u ≠ "") (hb : config.BaseURL ≠ "") :
    (NewHostClientWithRoundtripper heap config u scopes =
        .ok (heap ++ [impersonatedClient config u scopes], heap.length) ∧
      (impersonatedClient config u scopes).localCache = none) ∧
    (NewHostClientWithRoundtripper heap config "" scopes =
        .ok (heap ++ [nonImpersonatedClient config scopes], heap.length) ∧
      (nonImpersonatedClient config scopes).localCache = some []) ∧
    (h.localCache = none → stringToLower h.Config.ProductType = ProductTypeJira →
      NewHostClient heap h.Config u h.scopes =
          .ok (heap ++ [impersonatedClient h.Config u h.scopes], heap.length) ∧
      AsUserByAccountID heap h u = .nilMapPanic) := by
  refine ⟨⟨?_, rfl⟩, ⟨?_, rfl⟩, ?_⟩
  · simp [NewHostClientWithRoundtripper, hu]
  · simp [NewHostClientWithRoundtripper, hb]
  · intro hcache hpt
    constructor
    · simp [NewHostClient, NewHostClientWithRoundtripper, hu]
    · simp [AsUserByAccountID, hu, hcache, hpt, NewHostClient,
        NewHostClientWithRoundtripper]

theorem AsUser_nilCache_witness :
    AsUserByAccountID [] (impersonatedClient tenantT1 ("alice") []) ("alice") =
      .nilMapPanic :=
  ((AsUser_nilCache_panics [] tenantT1 ("alice") []
      (impersonatedClient tenantT1 ("alice") []) (by decide) (by decide)).2.2
    rfl (by decide)).2

/-- C5: on a factory with an initialized empty cache over a jira tenant,
AsUserByAccountID with a fresh non-empty userID constructs a client, stores
its reference in the cache keyed by that userID, and returns the reference;
calling it again with the same userID on the updated factory returns the
identical reference (reference equality is heap-index equality) with heap
and factory unchanged, so no new client is constructed; a different userID
produces a distinct reference in a distinct cache entry. -/
theorem AsUserByAccountID_cache_reuse (heap : Heap) (h : HostClient)
    (u v : String) (hcache : h.localCache = some [])
    (hpt : stringToLower h.Config.ProductType = ProductTypeJira)
    (hu : u ≠ "") (hv : v ≠ "") (huv : v ≠ u) :
    AsUserByAccountID heap h u =
      .ok (heap ++ [impersonatedClient h.Config u h.scopes])
        { h with localCache := some [(u, heap.length)] } heap.length ∧
    AsUserByAccountID (heap ++ [impersonatedClient h.Config u h.scopes])
        { h with localCache := some [(u, heap.length)] } u =
      .ok (heap ++ [impersonatedClient h.Config u h.scopes])
        { h with localCache := some [(u, heap.length)] } heap.length ∧
    AsUserByAccountID (heap ++ [impersonatedClient h.Config u h.scopes])
        { h with localCache := some [(u, heap.length)] } v =
      .ok ((heap ++ [impersonatedClient h.Config u h.scopes]) ++
            [impersonatedClient h.Config v h.scopes])
        { h with localCache := some [(v, heap.length + 1), (u, heap.length)] }
        (heap.length + 1) ∧
    heap.length + 1 ≠ heap.length := by
  have hvu : (v == u) = false := beq_eq_false_iff_ne.mpr huv
  refine ⟨?_, ?_, ?_, by omega⟩
  · simp [AsUserByAccountID, hu, hcache, hpt, NewHostClient,
      NewHostClientWithRoundtripper]
  · simp [AsUserByAccountID, hu, List.lookup]
  · simp [AsUserByAccountID, hv, hvu, hpt, List.lookup, NewHostClient,
      NewHostClientWithRoundtripper]

theorem AsUserByAccountID_cache_reuse_witness :
    AsUserByAccountID [] (nonImpersonatedClient tenantT1 []) ("alice") =
      .ok [impersonatedClient tenantT1 ("alice") []]
        { nonImpersonatedClient tenantT1 [] with
            localCache := some [("alice", 0)] } 0 :=
  (AsUserByAccountID_cache_reuse [] (nonImpersonatedClient tenantT1 [])
    ("alice") ("bob") rfl (by decide) (by decide) (by decide) (by decide)).1

end ACGo
